import Mathlib

/-!
Shallow embedding of the hackeurope repository: the browser-extension
scanner/background scripts, the Next.js dashboard API routes, the analytics
categorisation code, and (modelled from the spec, since the backend service
code is not part of the source tree) the intent-analysis orchestration
pipeline.  JavaScript runtime values are modelled with an explicit JSON
value type and JavaScript truthiness is made explicit wherever the code
relies on it.
-/

/- JSON values as produced by `JSON.parse` / received from the backend.
Arrays and objects carry their own list types so that all recursion over
nested values is structural.  Numbers are modelled as integers: every claim
treated here reads a number only through its truthiness (`0` falsy). -/
mutual

inductive Json where
  | null : Json
  | bool (b : Bool) : Json
  | num (n : Int) : Json
  | str (s : String) : Json
  | arr (items : JsonList) : Json
  | obj (fields : JsonFields) : Json
deriving DecidableEq

inductive JsonList where
  | nil : JsonList
  | cons (head : Json) (tail : JsonList) : JsonList
deriving DecidableEq

inductive JsonFields where
  | nil : JsonFields
  | cons (key : String) (value : Json) (tail : JsonFields) : JsonFields
deriving DecidableEq

end

/-- JavaScript truthiness of a JSON value: `null`, `false`, `0` and `""` are
falsy; every array and object is truthy. -/
def jsTruthy : Json → Bool
  | .null => false
  | .bool b => b
  | .num n => n != 0
  | .str s => s != ""
  | .arr _ => true
  | .obj _ => true

/-- The JavaScript idiom `x || fallback` (and the `if (x) return x` chains)
for a `string | null | undefined` value: the string itself when truthy
(non-empty), the fallback otherwise. -/
def jsStringOr (x : Option String) (fallback : String) : String :=
  match x with
  | some s => if s = "" then fallback else s
  | none => fallback

/-- Lookup of a key in an object's field list. -/
def jsFieldsLookup : JsonFields → String → Option Json
  | .nil, _ => none
  | .cons k v rest, key => if k == key then some v else jsFieldsLookup rest key

/-- Property access `body.key` on a parsed JSON value: `some` only when the
value is an object carrying the key (first occurrence), `none` (undefined)
otherwise. -/
def jsGetField : Json → String → Option Json
  | .obj fields, key => jsFieldsLookup fields key
  | _, _ => none

/-- The `typeof v === "string"` test on a possibly-undefined value, returning
the string when it is one. -/
def jsAsString : Option Json → Option String
  | some (.str s) => some s
  | _ => none

/-!
`lib/proxy-auth.ts` — `proxyAuthedRequest` (src/unnamed/part_002) and the
`lib/backend-api.ts` helpers it uses.
-/

/-- Options given to `proxyAuthedRequest`: backend path, HTTP method and an
optional JSON body. -/
structure ProxyAuthRequestOptions where
  path : String
  method : String
  body : Option Json
deriving DecidableEq

/-- What the Supabase server client yields for the current session:
`auth.getUser()` may return no user, `auth.getSession()` may return no
access token. -/
structure SupabaseAuth where
  user : Option Json
  accessToken : Option String
deriving DecidableEq

/-- A request actually sent to the backend by `sendAuthedRequest`. -/
structure SentRequest where
  path : String
  method : String
  bearer : String
  body : Option Json
deriving DecidableEq

/-- The backend's JSON reply as read by `backendJsonRequest`: a status code
and the parsed body (`none` when the body was not JSON). -/
structure BackendReply where
  status : Nat
  data : Option Json
deriving DecidableEq

/-- The outcome of one `proxyAuthedRequest` call: the response returned to
the dashboard plus the list of backend requests issued while producing it. -/
structure ProxyOutcome where
  status : Nat
  body : Option Json
  sent : List SentRequest
deriving DecidableEq

/-- Body of `unauthorizedResponse()`: `{ detail: "Unauthorized" }`. -/
def unauthorizedBody : Json :=
  .obj (.cons "detail" (.str "Unauthorized") .nil)

/-- `proxyAuthedRequest`: requires an authenticated user and then a session
access token (both JavaScript-truthy, so an empty-string token is treated
as missing); on failure answers 401 `{ detail: "Unauthorized" }` without
contacting the backend, otherwise forwards the request with the bearer
token and clones the backend reply (`cloneResponseData`). -/
def proxyAuthedRequest (auth : SupabaseAuth) (backend : SentRequest → BackendReply)
    (options : ProxyAuthRequestOptions) : ProxyOutcome :=
  match auth.user with
  | none => ⟨401, some unauthorizedBody, []⟩
  | some _ =>
    match auth.accessToken with
    | none => ⟨401, some unauthorizedBody, []⟩
    | some tok =>
      if tok = "" then ⟨401, some unauthorizedBody, []⟩
      else
        let req : SentRequest := ⟨options.path, options.method, tok, options.body⟩
        let reply := backend req
        ⟨reply.status, reply.data, [req]⟩

/-!
`app/api/calendars/route.ts` — the `POST` handler and
`invalidCalendarPayloadResponse`.
-/

/-- Result of the calendars `POST` route handler before any network I/O: a
422 validation error, or the options it hands to `proxyAuthedRequest`. -/
inductive CalendarPostRoute where
  | validationError (status : Nat) (msg : String)
  | proxied (options : ProxyAuthRequestOptions)
deriving DecidableEq

/-- `invalidCalendarPayloadResponse()`: status 422, single detail entry with
msg `"name and ical_url are required"`. -/
def invalidCalendarPayloadResponse : CalendarPostRoute :=
  .validationError 422 "name and ical_url are required"

/-- The calendars `POST` handler: `readJsonBody` yields `none` on a body
that is not JSON; the guard `!body || typeof body.name !== "string" ||
typeof body.ical_url !== "string"` rejects everything but a truthy value
whose `name` and `ical_url` properties are strings; otherwise it forwards
a body holding exactly those two fields. -/
def postCalendars (parsedBody : Option Json) : CalendarPostRoute :=
  match parsedBody with
  | none => invalidCalendarPayloadResponse
  | some body =>
    if !(jsTruthy body) then invalidCalendarPayloadResponse
    else
      match jsAsString (jsGetField body "name"), jsAsString (jsGetField body "ical_url") with
      | some n, some u =>
        .proxied ⟨"/api/calendars", "POST",
          some (.obj (.cons "name" (.str n) (.cons "ical_url" (.str u) .nil)))⟩
      | _, _ => invalidCalendarPayloadResponse

/-!
`app/dashboard/analytics/page.tsx` — category derivation for an
`InterventionResponse`.
-/

/-- Lowercasing of a string, character by character (`toLowerCase`; the
source strings are ASCII). -/
def lowerString (s : String) : String :=
  String.mk (s.data.map Char.toLower)

/-- Trimming of leading and trailing whitespace (`trim`). -/
def trimString (s : String) : String :=
  String.mk (((s.data.dropWhile Char.isWhitespace).reverse.dropWhile Char.isWhitespace).reverse)

/-- Whether the character list starts with the pattern. -/
def startsWithPat : List Char → List Char → Bool
  | _, [] => true
  | [], _ :: _ => false
  | c :: cs, p :: ps => c == p && startsWithPat cs ps

/-- Whether the pattern occurs somewhere in the character list. -/
def containsPat : List Char → List Char → Bool
  | [], p => p.isEmpty
  | c :: cs, p => startsWithPat (c :: cs) p || containsPat cs p

/-- Substring test, modelling both `String.prototype.includes` and a regex
of plain literal alternatives applied via `.test`. -/
def strContainsSub (s pat : String) : Bool := containsPat s.data pat.data

/-- The `CATEGORY_KEYS` set of category-like keys. -/
def categoryKeys : List String :=
  ["category", "purchase_category", "product_category", "item_category",
   "intent_category", "subcategory"]

/-- A character replaced by `/[_-]+/` in `toTitleCase`. -/
def isDashChar (c : Char) : Bool := c == '_' || c == '-'

/-- Replace every run of characters satisfying `p` by a single space
(`inRun` records whether the previous character belonged to a run), as the
global regex replacements `/\s+/g` and `/[_-]+/g` do. -/
def collapseRuns (p : Char → Bool) : Bool → List Char → List Char
  | _, [] => []
  | inRun, c :: cs =>
    if p c then
      (if inRun then [] else [' ']) ++ collapseRuns p true cs
    else c :: collapseRuns p false cs

/-- A word character for the regex `\b\w`: alphanumeric or underscore. -/
def isWordChar (c : Char) : Bool := c.isAlphanum || c == '_'

/-- Uppercase every word character that starts a word (the replacement
`/\b\w/g`), tracking whether the previous character was a word character. -/
def upperAtWordStart : Bool → List Char → List Char
  | _, [] => []
  | prevWord, c :: cs =>
    (if isWordChar c && !prevWord then c.toUpper else c) ::
      upperAtWordStart (isWordChar c) cs

/-- `toTitleCase`: trim, turn `[_-]` runs into single spaces, lowercase,
then capitalise the first character of every word. -/
def toTitleCase (value : String) : String :=
  let dashed := String.mk (collapseRuns isDashChar false (trimString value).data)
  String.mk (upperAtWordStart false (lowerString dashed).data)

/-- `sanitizeCategory`: collapse whitespace runs to single spaces, trim,
and return `""` for a blank result, otherwise the title-cased string. -/
def sanitizeCategory (value : String) : String :=
  let cleaned := trimString (String.mk (collapseRuns Char.isWhitespace false value.data))
  if cleaned = "" then "" else toTitleCase cleaned

/- `extractCategoryFromIntentData` and its traversals of array elements and
object entries.  The JavaScript source recurses with `depth + 1` into every
nested value and answers `null` once `depth > 4`; array elements and object
entries are visited in order, an entry first being tested as a category-like
key with a string value whose sanitised form is truthy, then recursed into.
A returned category is used only when truthy (non-empty). -/
mutual

def extractCategoryFromIntentData (value : Json) (depth : Nat) : Option String :=
  if depth > 4 || !(jsTruthy value) then none
  else
    match value with
    | .arr items => extractCategoryFromItems items depth
    | .obj fields => extractCategoryFromEntries fields depth
    | _ => none

def extractCategoryFromItems (items : JsonList) (depth : Nat) : Option String :=
  match items with
  | .nil => none
  | .cons x xs =>
    match extractCategoryFromIntentData x (depth + 1) with
    | some c => if c = "" then extractCategoryFromItems xs depth else some c
    | none => extractCategoryFromItems xs depth

def extractCategoryFromEntries (fields : JsonFields) (depth : Nat) : Option String :=
  match fields with
  | .nil => none
  | .cons rawKey nestedValue rest =>
    let keyCategory : Option String :=
      if categoryKeys.contains (lowerString rawKey) then
        match nestedValue with
        | .str s => if sanitizeCategory s = "" then none else some (sanitizeCategory s)
        | _ => none
      else none
    match keyCategory with
    | some c => some c
    | none =>
      match extractCategoryFromIntentData nestedValue (depth + 1) with
      | some c => if c = "" then extractCategoryFromEntries rest depth else some c
      | none => extractCategoryFromEntries rest depth

end

/-- `inferCategoryFromRiskFactors`: join with spaces, lowercase, then match
the first keyword of a fixed list. -/
def inferCategoryFromRiskFactors (riskFactors : List String) : Option String :=
  let normalized := lowerString (String.mk (List.intercalate [' '] (riskFactors.map String.data)))
  if strContainsSub normalized "subscription" then some "Subscriptions"
  else if strContainsSub normalized "impulse" then some "Impulse Spending"
  else if strContainsSub normalized "urgent" then some "Urgent Purchases"
  else if strContainsSub normalized "duplicate" then some "Duplicate Orders"
  else if strContainsSub normalized "upsell" then some "Upsell Pressure"
  else if strContainsSub normalized "finance" then some "Financial Risk"
  else none

/-- `inferCategoryFromDomain`: lowercase the domain and test the fixed
pattern groups in order, defaulting to `"Uncategorized"`. -/
def inferCategoryFromDomain (domain : String) : String :=
  let normalized := lowerString domain
  if strContainsSub normalized "amazon" || strContainsSub normalized "ebay" ||
     strContainsSub normalized "etsy" || strContainsSub normalized "walmart" ||
     strContainsSub normalized "target" || strContainsSub normalized "aliexpress" then "Shopping"
  else if strContainsSub normalized "booking" || strContainsSub normalized "airbnb" ||
     strContainsSub normalized "expedia" || strContainsSub normalized "trip" ||
     strContainsSub normalized "flight" || strContainsSub normalized "hotel" then "Travel"
  else if strContainsSub normalized "ubereats" || strContainsSub normalized "doordash" ||
     strContainsSub normalized "grubhub" || strContainsSub normalized "deliveroo" then "Food Delivery"
  else if strContainsSub normalized "uber" || strContainsSub normalized "lyft" ||
     strContainsSub normalized "taxi" || strContainsSub normalized "train" ||
     strContainsSub normalized "rail" then "Transport"
  else if strContainsSub normalized "apple" || strContainsSub normalized "google" ||
     strContainsSub normalized "microsoft" || strContainsSub normalized "adobe" ||
     strContainsSub normalized "spotify" || strContainsSub normalized "netflix" then "Digital Services"
  else "Uncategorized"

/-- The fields of an `InterventionResponse` read by the analytics page's
category derivation; `risk_factors` may be absent at runtime (the code
defends with `?? []`). -/
structure InterventionResponse where
  id : String
  domain : String
  intent_data : Json
  risk_factors : Option (List String)
deriving DecidableEq

/-- `deriveCategory`: category-like key inside `intent_data` first, then
keyword inference from the risk factors, then domain-pattern inference.
Each candidate is used only when truthy, mirroring the `if (x) return x`
chain. -/
def deriveCategory (intervention : InterventionResponse) : String :=
  jsStringOr (extractCategoryFromIntentData intervention.intent_data 0)
    (jsStringOr (inferCategoryFromRiskFactors (intervention.risk_factors.getD []))
      (inferCategoryFromDomain intervention.domain))

/-!
`scanner/background.js` — the background-script message listener, and the
`sendFeedback` caller in `scanner/scanner.js`.
-/

/-- The fields of an `/api/analyze` response the background script reads.
Each may be absent from the JSON body. -/
structure AnalyzeResponse where
  id : Option String
  is_safe : Option Bool
  intervention_message : Option String
deriving DecidableEq

/-- A `chrome.tabs.Tab`: its `id` field is optional in the extension API. -/
structure Tab where
  id : Option Nat
deriving DecidableEq

/-- The `sender` of a runtime message; `sender.tab` is absent for messages
not sent from a content script. -/
structure MessageSender where
  tab : Option Tab
deriving DecidableEq

/-- The optional-chaining access `sender.tab?.id`. -/
def senderTabId (sender : MessageSender) : Option Nat :=
  sender.tab.bind Tab.id

/-- A message sent to a tab via `chrome.tabs.sendMessage`. -/
inductive TabMessage where
  | showModal (tabId : Nat) (title : String) (message : String)
deriving DecidableEq

/-- The modal message chosen on line 87 of `background.js`:
`data.intervention_message || "This flight may not be safe."`. -/
def shownModalMessage (data : AnalyzeResponse) : String :=
  jsStringOr data.intervention_message "This flight may not be safe."

/-- What the `FLIGHT_DATA` handler does once the `/api/analyze` response
arrives: `if (data.is_safe === false && sender.tab?.id)` — a strict
comparison with `false` and a truthiness test of the optional tab id (so a
tab id of `0` fails the guard) — then one `SHOW_MODAL` message to the
sender's tab. -/
def flightDataResponseActions (data : AnalyzeResponse) (sender : MessageSender) :
    List TabMessage :=
  if data.is_safe == some false then
    match senderTabId sender with
    | some tabId =>
      if tabId != 0 then
        [.showModal tabId "Flight warning" (shownModalMessage data)]
      else []
    | none => []
  else []

/-- Feedback values: `sendFeedback` in `scanner.js` is invoked only by the
two modal buttons, with `"positive"` and `"negative"`. -/
inductive FeedbackKind where
  | positive
  | negative
deriving DecidableEq

/-- The string carried in the `feedback` field of the payload
`{"feedback": feedback}` built by `sendFeedback`. -/
def feedbackString : FeedbackKind → String
  | .positive => "positive"
  | .negative => "negative"

/-- One event processed by the background script, in arrival order: the
parsed body of an `/api/analyze` response (whose `id` field sets
`response_id`), or a `FEEDBACK` runtime message from the content script. -/
inductive BgEvent where
  | analyzeResponse (id : String)
  | feedbackMsg (kind : FeedbackKind)
deriving DecidableEq

/-- A payload posted to `/api/feedback`: `msg.payload` is
`{"feedback": ...}` from `sendFeedback`, with `msg.payload.id` set to the
current `response_id` by the `FEEDBACK` handler. -/
structure FeedbackPayload where
  feedback : String
  id : String
deriving DecidableEq

/-- The background script as a fold over its events: `rid` is the module
variable `response_id`; each `FEEDBACK` message posts one payload, each
analyze response overwrites `response_id` with its `id`. -/
def feedbackPostsFrom : List BgEvent → String → List FeedbackPayload
  | [], _ => []
  | .analyzeResponse i :: rest, _ => feedbackPostsFrom rest i
  | .feedbackMsg k :: rest, rid => ⟨feedbackString k, rid⟩ :: feedbackPostsFrom rest rid

/-- All payloads posted to `/api/feedback` in one background-script
session; `response_id` starts as `''`. -/
def feedbackPosts (events : List BgEvent) : List FeedbackPayload :=
  feedbackPostsFrom events ""

/-- The `id` of the most recent analyze response in a list of events,
starting from `rid`. -/
def lastAnalyzeIdFrom : List BgEvent → String → String
  | [], rid => rid
  | .analyzeResponse i :: rest, _ => lastAnalyzeIdFrom rest i
  | .feedbackMsg _ :: rest, rid => lastAnalyzeIdFrom rest rid

/-- The `id` of the most recent analyze response, the empty string when
there has been none. -/
def lastAnalyzeId (events : List BgEvent) : String :=
  lastAnalyzeIdFrom events ""

/-- The number of `FEEDBACK` messages in a list of events. -/
def feedbackCount (events : List BgEvent) : Nat :=
  events.countP fun e =>
    match e with
    | .feedbackMsg _ => true
    | _ => false

/-!
The intent-analysis orchestration engine.  The backend service that
implements it is not part of the source tree (only its database migration
and its HTTP callers are), so the pipeline below is modelled from the
spec: §3 data model, §4 component design, §4.8 state machine, §6
interfaces and §7 error taxonomy.
-/

/-- Modelled from the spec: the IntentEnvelope input to the pipeline —
`user_id`, `domain`, and a domain-specific loosely-typed `intent` payload
(missing backend type; spec §3). -/
structure IntentEnvelope where
  user_id : String
  domain : String
  intent : Json
deriving DecidableEq

/-- Modelled from the spec: the raw judgment returned by the Judgment
Service, before the orchestrator interprets it — a claimed safety flag and
risk factors that need not be mutually consistent (missing backend type;
spec §2, §3). -/
structure RawJudgment where
  claimed_safe : Bool
  risk_factors : List String
deriving DecidableEq

/-- Modelled from the spec: the Verdict produced by the Audit stage —
`is_safe` and an ordered sequence of risk factors (missing backend type;
spec §3). -/
structure Verdict where
  is_safe : Bool
  risk_factors : List String
deriving DecidableEq

/-- Modelled from the spec: how the orchestrator maps a raw Judgment
Service response to a Verdict, enforcing `is_safe == (risk_factors is
empty)` whatever the service claimed (missing backend logic; spec §3
invariant). -/
def mkVerdict (raw : RawJudgment) : Verdict :=
  { is_safe := raw.risk_factors.isEmpty, risk_factors := raw.risk_factors }

/-- Modelled from the spec: a structured request to the Judgment Service
(missing backend type; spec §6 treats it as opaque structured input). -/
structure JudgmentRequest where
  payload : Json
deriving DecidableEq

/-- Modelled from the spec: an Intervention — `title` and `message`,
present only when unsafe (missing backend type; spec §3). -/
structure Intervention where
  title : String
  message : String
deriving DecidableEq

/-- Modelled from the spec: the Economics record — `compute_cost`,
`money_saved`, `platform_fee` (monetary amounts in minor units) and
`hour_of_day` (missing backend type; spec §3). -/
structure Economics where
  compute_cost : Nat
  money_saved : Nat
  platform_fee : Nat
  hour_of_day : Fin 24
deriving DecidableEq

/-- Modelled from the spec: configured constants of the Economics stage —
per-token rate, estimated token counts of the two judgment calls, the
fixed platform fee, and the wall-clock hour at analysis time, passed in
explicitly so the stage itself is a pure function (missing backend
configuration; spec §4.6). -/
structure EconomicsConfig where
  perTokenRate : Nat
  auditTokens : Nat
  draftTokens : Nat
  platformFee : Nat
  wallClockHour : Fin 24
deriving DecidableEq

/-- Modelled from the spec: a Domain Handler — the strategy contract of
§4.1.  `buildAuditRequest` answers `none` for a structurally incompatible
intent (`MalformedIntent`); `extractHour` answers `none` when no hour can
be derived from the intent (missing backend classes; spec §4.1). -/
structure DomainHandler where
  contextRequirements : Json → List String
  buildAuditRequest : Json → List (String × Option (List Json)) → Option JudgmentRequest
  buildDraftingRequest : Json → Verdict → JudgmentRequest
  extractPrice : Json → Nat
  extractHour : Json → Option (Fin 24)
  warningTitle : String
  defaultMessage : String

/-- Modelled from the spec: the generic audit request the Fallback Handler
builds — it degrades to the bare intent, never failing (missing backend
fallback handler; spec §4.2: every domain string is analyzable, at minimum
generically). -/
def genericAuditRequest (intent : Json) : JudgmentRequest :=
  ⟨intent⟩

/-- Modelled from the spec: the Fallback Handler — no context
requirements, a total `buildAuditRequest`, and generic economics inputs
(missing backend class; spec §4.2). -/
def fallbackHandler : DomainHandler where
  contextRequirements := fun _ => []
  buildAuditRequest := fun intent _ => some (genericAuditRequest intent)
  buildDraftingRequest := fun intent _ => ⟨intent⟩
  extractPrice := fun _ => 0
  extractHour := fun _ => none
  warningTitle := "Warning"
  defaultMessage := "This action may not be safe."

/-- Modelled from the spec: the Domain Registry — a string-keyed handler
map built once at startup, plus the Fallback Handler (missing backend
class; spec §4.2). -/
structure DomainRegistry where
  handlers : List (String × DomainHandler)
  fallback : DomainHandler

/-- The suffix of a character list after the first occurrence of the
pattern, `none` when the pattern does not occur. -/
def suffixAfterPat : List Char → List Char → Option (List Char)
  | [], pat => if pat.isEmpty then some [] else none
  | c :: cs, pat =>
    if startsWithPat (c :: cs) pat then some ((c :: cs).drop pat.length)
    else suffixAfterPat cs pat

/-- Modelled from the spec: domain normalisation before registry lookup —
scheme stripped, path stripped, lowercased (missing backend logic; spec
§4.2). -/
def normalizeDomain (d : String) : String :=
  let afterScheme := (suffixAfterPat d.data "://".data).getD d.data
  lowerString (String.mk (afterScheme.takeWhile (fun c => c != '/')))

/-- Modelled from the spec: registry lookup — the registered handler when
the normalised domain is a key, the Fallback Handler otherwise, never an
error (missing backend logic; spec §4.2). -/
def lookupHandler (reg : DomainRegistry) (d : String) : DomainHandler :=
  match reg.handlers.find? (fun p => p.1 == normalizeDomain d) with
  | some p => p.2
  | none => reg.fallback

/-- Modelled from the spec: context repositories — one fetch per source
name, `none` marking a failed or timed-out fetch (missing backend
collaborators; spec §4.3, §6). -/
def ContextRepositories : Type := String → Json → Option (List Json)

/-- Modelled from the spec: the Context Router fan-out — one entry per
required source, each either records or an explicit unavailable marker
(missing backend logic; spec §4.3). -/
def gatherContext (handler : DomainHandler) (repos : ContextRepositories)
    (intent : Json) : List (String × Option (List Json)) :=
  (handler.contextRequirements intent).map fun src => (src, repos src intent)

/-- Modelled from the spec: the Judgment Service collaborator — `judge`
and `draft`, each answering `none` on timeout or unparseable output
(missing backend collaborator; spec §6). -/
structure JudgmentService where
  judge : JudgmentRequest → Option RawJudgment
  draft : JudgmentRequest → Option String

/-- Modelled from the spec: the outcome of the two best-effort Storage
stage writes — domain records and the interaction record (missing backend
collaborator; spec §4.7). -/
structure StorageOutcome where
  domainWriteOk : Bool
  interactionWriteOk : Bool
deriving DecidableEq

/-- Modelled from the spec: the terminal states of the orchestrator state
machine (missing backend logic; spec §4.8). -/
inductive PipeState where
  | Responded
  | Rejected
  | Unavailable
deriving DecidableEq

/-- Modelled from the spec: the Economics stage — a pure function of the
configuration, handler, envelope and verdict: cost covers the audit call
plus the drafting call iff the verdict is unsafe, `money_saved` is the
extracted price iff unsafe and `0` otherwise, the fee is the configured
constant, and the hour falls back to the wall clock (missing backend
logic; spec §4.6). -/
def computeEconomics (cfg : EconomicsConfig) (handler : DomainHandler)
    (env : IntentEnvelope) (verdict : Verdict) : Economics :=
  { compute_cost :=
      cfg.perTokenRate * (cfg.auditTokens + if verdict.is_safe then 0 else cfg.draftTokens),
    money_saved := if verdict.is_safe then 0 else handler.extractPrice env.intent,
    platform_fee := cfg.platformFee,
    hour_of_day := (handler.extractHour env.intent).getD cfg.wallClockHour }

/-- Modelled from the spec: the result of one pipeline run — terminal
state, verdict, optional intervention, economics, the number of calls made
to the drafting capability, and the degraded-persistence flag (missing
backend type; spec §4.7, §4.8). -/
structure PipelineResult where
  state : PipeState
  verdict : Option Verdict
  intervention : Option Intervention
  economics : Option Economics
  draftCalls : Nat
  degradedPersistence : Bool
deriving DecidableEq

/-- Modelled from the spec: the Orchestrator — route, gather context,
audit, draft iff unsafe (with fallback to the handler's default message),
compute economics, store best-effort, respond; `MalformedIntent` ends in
`Rejected`, a judge failure in `Unavailable` (missing backend logic; spec
§4.4–§4.8, §7). -/
def runPipeline (reg : DomainRegistry) (svc : JudgmentService)
    (repos : ContextRepositories) (storage : StorageOutcome)
    (cfg : EconomicsConfig) (env : IntentEnvelope) : PipelineResult :=
  let handler := lookupHandler reg env.domain
  let bundle := gatherContext handler repos env.intent
  match handler.buildAuditRequest env.intent bundle with
  | none => ⟨.Rejected, none, none, none, 0, false⟩
  | some req =>
    match svc.judge req with
    | none => ⟨.Unavailable, none, none, none, 0, false⟩
    | some raw =>
      let verdict := mkVerdict raw
      let degraded := !(storage.domainWriteOk && storage.interactionWriteOk)
      if verdict.is_safe then
        ⟨.Responded, some verdict, none,
          some (computeEconomics cfg handler env verdict), 0, degraded⟩
      else
        let msg :=
          match svc.draft (handler.buildDraftingRequest env.intent verdict) with
          | some m => m
          | none => handler.defaultMessage
        ⟨.Responded, some verdict, some ⟨handler.warningTitle, msg⟩,
          some (computeEconomics cfg handler env verdict), 1, degraded⟩

/-!
Concrete fixtures used to instantiate the theorems below on closed inputs.
-/

/-- A registry with no registered domains, backed by the fallback handler. -/
def sampleRegistry : DomainRegistry := ⟨[], fallbackHandler⟩

/-- A judgment service that reports a calendar conflict while claiming the
intent is safe — an inconsistent raw response. -/
def riskyService : JudgmentService :=
  ⟨fun _ => some ⟨true, ["calendar conflict"]⟩, fun _ => some "Drafted warning"⟩

/-- A judgment service that reports no risk factors while claiming the
intent is unsafe — the other inconsistent raw response. -/
def safeService : JudgmentService :=
  ⟨fun _ => some ⟨false, []⟩, fun _ => none⟩

/-- Repositories in which every fetch fails. -/
def emptyRepositories : ContextRepositories := fun _ _ => none

/-- A storage outcome in which both writes succeed. -/
def sampleStorage : StorageOutcome := ⟨true, true⟩

/-- An economics configuration. -/
def sampleConfig : EconomicsConfig := ⟨2, 100, 50, 30, 12⟩

/-- A flight-booking intent envelope. -/
def sampleEnvelope : IntentEnvelope := ⟨"user-1", "skyscanner.net", .null⟩

/-- The same intent under a different user id. -/
def otherEnvelope : IntentEnvelope := ⟨"user-2", "skyscanner.net", .null⟩

/-- An intervention whose `intent_data` carries a category-like key. -/
def sampleIntervention : InterventionResponse :=
  ⟨"ivn-1", "amazon.com", .obj (.cons "category" (.str "shoes") .nil), none⟩

/-- A backend that replies 200 with no body. -/
def sampleBackend : SentRequest → BackendReply := fun _ => ⟨200, none⟩

/-- Options for a dashboard proxy request. -/
def sampleOptions : ProxyAuthRequestOptions := ⟨"/api/interventions", "GET", none⟩

/-!
Theorems.
-/

/-- The verdict built by the orchestrator always ties `is_safe` to the
emptiness of the risk factors. -/
theorem mkVerdict_safe_iff (raw : RawJudgment) :
    (mkVerdict raw).is_safe = true ↔ (mkVerdict raw).risk_factors = [] := by
  cases h : raw.risk_factors <;> simp [mkVerdict, h]

/-- C1: for every pipeline run, the verdict it responds with satisfies
`is_safe == true` iff `risk_factors` is empty, whatever the Judgment
Service returned. -/
theorem pipeline_verdict_safe_iff_no_risk (reg : DomainRegistry)
    (svc : JudgmentService) (repos : ContextRepositories) (storage : StorageOutcome)
    (cfg : EconomicsConfig) (env : IntentEnvelope) (v : Verdict)
    (h : (runPipeline reg svc repos storage cfg env).verdict = some v) :
    v.is_safe = true ↔ v.risk_factors = [] := by
  simp only [runPipeline] at h
  rcases hb : (lookupHandler reg env.domain).buildAuditRequest env.intent
      (gatherContext (lookupHandler reg env.domain) repos env.intent) with _ | req
  · rw [hb] at h
    simp at h
  · rw [hb] at h
    dsimp only at h
    rcases hj : svc.judge req with _ | raw
    · rw [hj] at h
      simp at h
    · rw [hj] at h
      dsimp only at h
      by_cases hs : (mkVerdict raw).is_safe = true
      · simp [hs] at h
        subst h
        exact mkVerdict_safe_iff raw
      · simp [hs] at h
        subst h
        exact mkVerdict_safe_iff raw

/-- C1 witness: a service that claims safety while reporting a conflict is
overridden by the orchestrator. -/
theorem pipeline_verdict_safe_iff_no_risk_witness :
    (runPipeline sampleRegistry riskyService emptyRepositories sampleStorage
        sampleConfig sampleEnvelope).verdict = some ⟨false, ["calendar conflict"]⟩ ∧
      ((false : Bool) = true ↔ ["calendar conflict"] = ([] : List String)) :=
  ⟨by decide,
   pipeline_verdict_safe_iff_no_risk sampleRegistry riskyService emptyRepositories
     sampleStorage sampleConfig sampleEnvelope ⟨false, ["calendar conflict"]⟩ (by decide)⟩

/-- C5: when the audit verdict is safe, the run makes zero calls to the
drafting capability of the Judgment Service. -/
theorem drafting_skipped_when_safe (reg : DomainRegistry) (svc : JudgmentService)
    (repos : ContextRepositories) (storage : StorageOutcome) (cfg : EconomicsConfig)
    (env : IntentEnvelope) (v : Verdict)
    (h : (runPipeline reg svc repos storage cfg env).verdict = some v)
    (hs : v.is_safe = true) :
    (runPipeline reg svc repos storage cfg env).draftCalls = 0 := by
  revert h
  simp only [runPipeline]
  rcases hb : (lookupHandler reg env.domain).buildAuditRequest env.intent
      (gatherContext (lookupHandler reg env.domain) repos env.intent) with _ | req
  · dsimp only
    intro _
    rfl
  · dsimp only
    rcases hj : svc.judge req with _ | raw
    · dsimp only
      intro _
      rfl
    · dsimp only
      by_cases hv : (mkVerdict raw).is_safe = true
      · simp [hv]
      · simp only [if_neg hv]
        intro h
        simp at h
        subst h
        exact absurd hs hv

/-- C5 witness: a safe verdict leads to zero drafting calls. -/
theorem drafting_skipped_when_safe_witness :
    (runPipeline sampleRegistry safeService emptyRepositories sampleStorage
        sampleConfig sampleEnvelope).verdict = some ⟨true, []⟩ ∧
      (runPipeline sampleRegistry safeService emptyRepositories sampleStorage
        sampleConfig sampleEnvelope).draftCalls = 0 :=
  ⟨by decide,
   drafting_skipped_when_safe sampleRegistry safeService emptyRepositories
     sampleStorage sampleConfig sampleEnvelope ⟨true, []⟩ (by decide) rfl⟩

/-- C6: a domain missing from the registry resolves to the fallback
handler — lookup is total, never an error — and, provided the judgment
service answers, the run still reaches `Responded`. -/
theorem fallback_domain_reaches_responded (reg : DomainRegistry)
    (svc : JudgmentService) (repos : ContextRepositories) (storage : StorageOutcome)
    (cfg : EconomicsConfig) (env : IntentEnvelope)
    (hmiss : ∀ p ∈ reg.handlers, p.1 ≠ normalizeDomain env.domain)
    (hfb : reg.fallback = fallbackHandler)
    (hjudge : ∀ r, (svc.judge r).isSome = true) :
    lookupHandler reg env.domain = reg.fallback ∧
      (runPipeline reg svc repos storage cfg env).state = .Responded := by
  have hl : lookupHandler reg env.domain = reg.fallback := by
    unfold lookupHandler
    rw [List.find?_eq_none.mpr]
    intro p hp
    simp only [beq_iff_eq]
    exact hmiss p hp
  refine ⟨hl, ?_⟩
  simp only [runPipeline, hl, hfb, fallbackHandler]
  rcases hjr : svc.judge (genericAuditRequest env.intent) with _ | raw
  · have h2 := hjudge (genericAuditRequest env.intent)
    rw [hjr] at h2
    simp at h2
  · by_cases hv : (mkVerdict raw).is_safe = true <;> simp [hv]

/-- C6 witness: an unregistered domain is handled by the fallback handler
and the run responds. -/
theorem fallback_domain_reaches_responded_witness :
    lookupHandler sampleRegistry "unknown.example" = sampleRegistry.fallback ∧
      (runPipeline sampleRegistry riskyService emptyRepositories sampleStorage
        sampleConfig ⟨"user-1", "unknown.example", .null⟩).state = .Responded :=
  fallback_domain_reaches_responded sampleRegistry riskyService emptyRepositories
    sampleStorage sampleConfig ⟨"user-1", "unknown.example", .null⟩
    (by intro p hp; cases hp) rfl (fun _ => rfl)

/-- C7: the Economics stage is a pure function of the intent and the
verdict (given its configuration and handler): it reads nothing else from
the envelope, so two runs on the same `(intent, verdict)` pair yield the
same `(compute_cost, money_saved, platform_fee, hour_of_day)`. -/
theorem economics_pure_deterministic (cfg : EconomicsConfig)
    (handler : DomainHandler) (env₁ env₂ : IntentEnvelope) (verdict : Verdict)
    (h : env₁.intent = env₂.intent) :
    computeEconomics cfg handler env₁ verdict = computeEconomics cfg handler env₂ verdict := by
  simp only [computeEconomics, h]

/-- C7 witness: the same intent under two different user ids yields the
same economics. -/
theorem economics_pure_deterministic_witness :
    computeEconomics sampleConfig fallbackHandler sampleEnvelope ⟨false, ["r"]⟩ =
      computeEconomics sampleConfig fallbackHandler otherEnvelope ⟨false, ["r"]⟩ :=
  economics_pure_deterministic sampleConfig fallbackHandler sampleEnvelope
    otherEnvelope ⟨false, ["r"]⟩ rfl

/-- C8: with no authenticated user or no access token the proxy answers
401 `{ detail: "Unauthorized" }` and issues no backend request; a backend
request is issued only when both are present. -/
theorem proxy_unauthorized_gating (auth : SupabaseAuth)
    (backend : SentRequest → BackendReply) (options : ProxyAuthRequestOptions) :
    ((auth.user = none ∨ auth.accessToken = none) →
        proxyAuthedRequest auth backend options = ⟨401, some unauthorizedBody, []⟩) ∧
      ((proxyAuthedRequest auth backend options).sent ≠ [] →
        auth.user.isSome = true ∧ auth.accessToken.isSome = true) := by
  obtain ⟨u, t⟩ := auth
  constructor
  · rintro (hu | ht)
    · subst hu
      rfl
    · subst ht
      cases u <;> rfl
  · intro hsent
    cases u with
    | none => exact absurd rfl hsent
    | some uv =>
      cases t with
      | none => exact absurd rfl hsent
      | some tok => exact ⟨rfl, rfl⟩

/-- C8 witness: a missing user yields the unauthorized response with no
backend request, and an authenticated session with a token does reach the
backend. -/
theorem proxy_unauthorized_gating_witness :
    proxyAuthedRequest ⟨none, none⟩ sampleBackend sampleOptions =
        ⟨401, some unauthorizedBody, []⟩ ∧
      (⟨some .null, some "tok"⟩ : SupabaseAuth).user.isSome = true ∧
        (⟨some .null, some "tok"⟩ : SupabaseAuth).accessToken.isSome = true :=
  ⟨(proxy_unauthorized_gating ⟨none, none⟩ sampleBackend sampleOptions).1 (Or.inl rfl),
   (proxy_unauthorized_gating ⟨some .null, some "tok"⟩ sampleBackend sampleOptions).2
     (by decide)⟩


/-- `jsAsString` answers a string exactly when the value is that JSON
string. -/
theorem jsAsString_eq_some (x : Option Json) (s : String) :
    jsAsString x = some s ↔ x = some (.str s) := by
  rcases x with _ | v
  · simp [jsAsString]
  · cases v <;> simp [jsAsString]

/-- C10: the calendars POST route answers the 422 validation error exactly
when the request body is not a JSON object whose `name` and `ical_url`
fields are both strings, and otherwise forwards a body holding exactly
those two keys with those values. -/
theorem postCalendars_validation (parsedBody : Option Json) :
    (postCalendars parsedBody = invalidCalendarPayloadResponse ↔
        ¬ ∃ fields n u, parsedBody = some (.obj fields) ∧
            jsFieldsLookup fields "name" = some (.str n) ∧
            jsFieldsLookup fields "ical_url" = some (.str u)) ∧
      (∀ fields n u, parsedBody = some (.obj fields) →
        jsFieldsLookup fields "name" = some (.str n) →
        jsFieldsLookup fields "ical_url" = some (.str u) →
        postCalendars parsedBody =
          .proxied ⟨"/api/calendars", "POST",
            some (.obj (.cons "name" (.str n) (.cons "ical_url" (.str u) .nil)))⟩) := by
  have hfwd : ∀ fields n u, parsedBody = some (.obj fields) →
      jsFieldsLookup fields "name" = some (.str n) →
      jsFieldsLookup fields "ical_url" = some (.str u) →
      postCalendars parsedBody =
        .proxied ⟨"/api/calendars", "POST",
          some (.obj (.cons "name" (.str n) (.cons "ical_url" (.str u) .nil)))⟩ := by
    rintro fields n u rfl hn hu
    simp [postCalendars, jsTruthy, jsGetField, jsAsString, hn, hu]
  refine ⟨⟨?_, ?_⟩, hfwd⟩
  · intro heq
    rintro ⟨fields, n, u, hf, hn, hu⟩
    rw [hfwd fields n u hf hn hu] at heq
    exact absurd heq (by simp [invalidCalendarPayloadResponse])
  · intro hno
    rcases parsedBody with _ | body
    · rfl
    cases body with
    | obj fields =>
      rcases ha : jsAsString (jsFieldsLookup fields "name") with _ | n
      · simp [postCalendars, jsGetField, jsTruthy, ha]
      · rcases hb : jsAsString (jsFieldsLookup fields "ical_url") with _ | u
        · simp [postCalendars, jsGetField, jsTruthy, ha, hb]
        · exact absurd
            ⟨fields, n, u, rfl, (jsAsString_eq_some _ n).mp ha, (jsAsString_eq_some _ u).mp hb⟩
            hno
    | null => rfl
    | bool b => cases b <;> rfl
    | num n2 =>
      by_cases hz : n2 = 0 <;>
        simp [postCalendars, jsTruthy, jsGetField, jsAsString, hz]
    | str s =>
      by_cases hz : s = "" <;>
        simp [postCalendars, jsTruthy, jsGetField, jsAsString, hz]
    | arr items => rfl

/-- C10 witness: a well-formed body is forwarded with exactly the two
fields. -/
theorem postCalendars_validation_witness :
    postCalendars (some (.obj (.cons "name" (.str "Work")
        (.cons "ical_url" (.str "https://cal.example/a.ics") .nil)))) =
      .proxied ⟨"/api/calendars", "POST",
        some (.obj (.cons "name" (.str "Work")
          (.cons "ical_url" (.str "https://cal.example/a.ics") .nil)))⟩ :=
  (postCalendars_validation (some (.obj (.cons "name" (.str "Work")
      (.cons "ical_url" (.str "https://cal.example/a.ics") .nil))))).2
    (.cons "name" (.str "Work") (.cons "ical_url" (.str "https://cal.example/a.ics") .nil))
    "Work" "https://cal.example/a.ics" rfl (by decide) (by decide)

/-- C2 counterexample: a tab that has an id — namely `0` — together with
`is_safe: false` produces no `SHOW_MODAL` dispatch, because the guard
`sender.tab?.id` is a JavaScript truthiness test and `0` is falsy; so
"dispatched iff `is_safe` is false and the sending tab has an id" fails as
stated. -/
theorem flight_warning_id_zero_counterexample :
    (senderTabId ⟨some ⟨some 0⟩⟩).isSome = true ∧
      (⟨some "r1", some false, some "msg"⟩ : AnalyzeResponse).is_safe = some false ∧
      flightDataResponseActions ⟨some "r1", some false, some "msg"⟩ ⟨some ⟨some 0⟩⟩ = [] := by
  decide

/-- Characterization of the `FLIGHT_DATA` response handler's dispatch
behaviour, shared by the dispatch and message theorems. -/
theorem flightDataActions_characterization (data : AnalyzeResponse) (sender : MessageSender) :
    (∀ n, senderTabId sender = some n → n ≠ 0 → data.is_safe = some false →
        flightDataResponseActions data sender =
          [.showModal n "Flight warning" (shownModalMessage data)]) ∧
      (data.is_safe ≠ some false → flightDataResponseActions data sender = []) ∧
      (senderTabId sender = none → flightDataResponseActions data sender = []) ∧
      (senderTabId sender = some 0 → flightDataResponseActions data sender = []) := by
  refine ⟨?_, ?_, ?_, ?_⟩
  · intro n hn hnz hs
    simp [flightDataResponseActions, hs, hn, hnz]
  · intro hs
    simp only [flightDataResponseActions]
    rw [if_neg]
    simp [hs]
  · intro hn
    simp [flightDataResponseActions, hn]
  · intro hn
    simp [flightDataResponseActions, hn]

/-- C2 (amended): a `SHOW_MODAL` warning with a title and message is
dispatched to the originating tab iff the response's `is_safe` field is
`false` and the sending tab has a truthy (nonzero) id; when `is_safe` is
true or absent, or the tab id is missing or `0`, nothing is shown. -/
theorem flight_warning_dispatch (data : AnalyzeResponse) (sender : MessageSender) :
    (∀ n, senderTabId sender = some n → n ≠ 0 → data.is_safe = some false →
        flightDataResponseActions data sender =
          [.showModal n "Flight warning" (shownModalMessage data)]) ∧
      (data.is_safe ≠ some false → flightDataResponseActions data sender = []) ∧
      (senderTabId sender = none → flightDataResponseActions data sender = []) ∧
      (senderTabId sender = some 0 → flightDataResponseActions data sender = []) :=
  flightDataActions_characterization data sender

/-- C2 (amended) witness: an unsafe response with a nonzero tab id shows
the modal; a safe response with the same tab shows nothing. -/
theorem flight_warning_dispatch_witness :
    flightDataResponseActions ⟨some "r1", some false, some "Conflict found"⟩ ⟨some ⟨some 7⟩⟩ =
        [.showModal 7 "Flight warning" "Conflict found"] ∧
      flightDataResponseActions ⟨some "r1", some true, some "Conflict found"⟩ ⟨some ⟨some 7⟩⟩ = [] :=
  ⟨(flight_warning_dispatch ⟨some "r1", some false, some "Conflict found"⟩ ⟨some ⟨some 7⟩⟩).1
     7 rfl (by decide) rfl,
   (flight_warning_dispatch ⟨some "r1", some true, some "Conflict found"⟩ ⟨some ⟨some 7⟩⟩).2.1
     (by decide)⟩

/-- C3: when a warning is triggered, its message is the response's
`intervention_message` when that is a non-empty string, and the default
`"This flight may not be safe."` otherwise. -/
theorem modal_message_fallback (data : AnalyzeResponse) (sender : MessageSender) (n : Nat)
    (hn : senderTabId sender = some n) (hnz : n ≠ 0) (hs : data.is_safe = some false) :
    (∀ s, data.intervention_message = some s → s ≠ "" →
        flightDataResponseActions data sender = [.showModal n "Flight warning" s]) ∧
      ((data.intervention_message = none ∨ data.intervention_message = some "") →
        flightDataResponseActions data sender =
          [.showModal n "Flight warning" "This flight may not be safe."]) := by
  have hact := (flightDataActions_characterization data sender).1 n hn hnz hs
  constructor
  · intro s hmsg hne
    rw [hact]
    simp [shownModalMessage, jsStringOr, hmsg, hne]
  · rintro (hmsg | hmsg) <;> rw [hact] <;> simp [shownModalMessage, jsStringOr, hmsg]

/-- C3 witness: a present non-empty drafted message is shown verbatim; an
absent one falls back to the default. -/
theorem modal_message_fallback_witness :
    flightDataResponseActions ⟨some "r1", some false, some "Overlap with your calendar"⟩
        ⟨some ⟨some 3⟩⟩ = [.showModal 3 "Flight warning" "Overlap with your calendar"] ∧
      flightDataResponseActions ⟨some "r1", some false, none⟩ ⟨some ⟨some 3⟩⟩ =
        [.showModal 3 "Flight warning" "This flight may not be safe."] :=
  ⟨(modal_message_fallback ⟨some "r1", some false, some "Overlap with your calendar"⟩
      ⟨some ⟨some 3⟩⟩ 3 rfl (by decide) rfl).1 "Overlap with your calendar" rfl (by decide),
   (modal_message_fallback ⟨some "r1", some false, none⟩
      ⟨some ⟨some 3⟩⟩ 3 rfl (by decide) rfl).2 (Or.inl rfl)⟩

/-- The payload posted for the feedback event after `pre` carries the
feedback string and the `response_id` current at that point. -/
theorem feedbackPostsFrom_at (fb : FeedbackKind) (post : List BgEvent) :
    ∀ (pre : List BgEvent) (rid : String),
      (feedbackPostsFrom (pre ++ .feedbackMsg fb :: post) rid).get? (feedbackCount pre) =
        some ⟨feedbackString fb, lastAnalyzeIdFrom pre rid⟩ := by
  intro pre
  induction pre with
  | nil =>
    intro rid
    simp [feedbackPostsFrom, feedbackCount, lastAnalyzeIdFrom]
  | cons e rest ih =>
    intro rid
    cases e with
    | analyzeResponse i =>
      simpa [feedbackPostsFrom, feedbackCount, lastAnalyzeIdFrom] using ih i
    | feedbackMsg k =>
      simpa [feedbackPostsFrom, feedbackCount, lastAnalyzeIdFrom] using ih rid

/-- Every payload the session ever posts carries a `"positive"` or
`"negative"` feedback string. -/
theorem feedbackPosts_mem_feedback (rid : String) :
    ∀ (events : List BgEvent) (p : FeedbackPayload), p ∈ feedbackPostsFrom events rid →
      p.feedback = "positive" ∨ p.feedback = "negative" := by
  intro events
  induction events generalizing rid with
  | nil =>
    intro p hp
    cases hp
  | cons e rest ih =>
    intro p hp
    cases e with
    | analyzeResponse i => exact ih i p hp
    | feedbackMsg k =>
      rcases List.mem_cons.mp hp with h | h
      · subst h
        cases k
        · exact Or.inl rfl
        · exact Or.inr rfl
      · exact ih rid p h

/-- C4: every payload posted to `/api/feedback` has a `feedback` field
equal to `"positive"` or `"negative"`, and the payload posted for a given
feedback event has an `id` equal to the `id` of the most recently received
analyze response — the empty string when none has been received. -/
theorem feedback_payload_shape (events pre post : List BgEvent) (fb : FeedbackKind)
    (p : FeedbackPayload) (hp : p ∈ feedbackPosts events) :
    (p.feedback = "positive" ∨ p.feedback = "negative") ∧
      (feedbackPosts (pre ++ .feedbackMsg fb :: post)).get? (feedbackCount pre) =
        some ⟨feedbackString fb, lastAnalyzeId pre⟩ :=
  ⟨feedbackPosts_mem_feedback "" events p hp, feedbackPostsFrom_at fb post pre ""⟩

/-- C4 witness: a session that receives an analyze response with id
`"abc"`, posts positive feedback, then posts negative feedback after a
second response with id `"xyz"`. -/
theorem feedback_payload_shape_witness :
    ((⟨"positive", "abc"⟩ : FeedbackPayload).feedback = "positive" ∨
        (⟨"positive", "abc"⟩ : FeedbackPayload).feedback = "negative") ∧
      (feedbackPosts ([.analyzeResponse "abc", .analyzeResponse "xyz"] ++
          .feedbackMsg .negative :: [])).get?
          (feedbackCount [.analyzeResponse "abc", .analyzeResponse "xyz"]) =
        some ⟨feedbackString .negative, lastAnalyzeId [.analyzeResponse "abc", .analyzeResponse "xyz"]⟩ :=
  feedback_payload_shape [.analyzeResponse "abc", .feedbackMsg .positive]
    [.analyzeResponse "abc", .analyzeResponse "xyz"] [] .negative
    ⟨"positive", "abc"⟩ (by decide)

/-- Domain-pattern inference can only answer one of six fixed labels or
`"Uncategorized"` — never the empty string. -/
theorem inferCategoryFromDomain_ne_empty (domain : String) :
    inferCategoryFromDomain domain ≠ "" := by
  simp only [inferCategoryFromDomain]
  repeat' split
  all_goals decide

/-- A truthiness fallback chain is non-empty whenever its fallback is. -/
theorem jsStringOr_ne_empty (x : Option String) (fallback : String)
    (h : fallback ≠ "") : jsStringOr x fallback ≠ "" := by
  cases x with
  | none => simpa [jsStringOr] using h
  | some s =>
    simp only [jsStringOr]
    split
    · exact h
    · assumption

/-- C9: `deriveCategory` is total — its recursion over `intent_data` is
cut off past depth 4 — and always answers a non-empty category, trying a
category-like key inside `intent_data`, then risk-factor keywords, then
domain patterns, and finally `"Uncategorized"`. -/
theorem deriveCategory_total (iv : InterventionResponse) (v : Json) (d : Nat) :
    deriveCategory iv ≠ "" ∧
      (4 < d → extractCategoryFromIntentData v d = none) ∧
      (∀ c, extractCategoryFromIntentData iv.intent_data 0 = some c → c ≠ "" →
        deriveCategory iv = c) ∧
      (extractCategoryFromIntentData iv.intent_data 0 = none →
        ∀ c, inferCategoryFromRiskFactors (iv.risk_factors.getD []) = some c → c ≠ "" →
          deriveCategory iv = c) ∧
      (extractCategoryFromIntentData iv.intent_data 0 = none →
        inferCategoryFromRiskFactors (iv.risk_factors.getD []) = none →
        deriveCategory iv = inferCategoryFromDomain iv.domain) := by
  refine ⟨?_, ?_, ?_, ?_, ?_⟩
  · simp only [deriveCategory]
    exact jsStringOr_ne_empty _ _
      (jsStringOr_ne_empty _ _ (inferCategoryFromDomain_ne_empty iv.domain))
  · intro hd
    cases v <;> simp [extractCategoryFromIntentData, hd]
  · intro c hic hc
    simp [deriveCategory, hic, jsStringOr, hc]
  · intro hic c hrc hc
    simp [deriveCategory, hic, hrc, jsStringOr, hc]
  · intro hic hrc
    simp [deriveCategory, hic, hrc, jsStringOr]

/-- C9 witness: a category-like key nested in `intent_data` wins, the
depth cutoff holds at depth 5, and the result is non-empty. -/
theorem deriveCategory_total_witness :
    deriveCategory sampleIntervention ≠ "" ∧
      extractCategoryFromIntentData .null 5 = none ∧
      deriveCategory sampleIntervention = "Shoes" :=
  ⟨(deriveCategory_total sampleIntervention .null 5).1,
   (deriveCategory_total sampleIntervention .null 5).2.1 (by decide),
   (deriveCategory_total sampleIntervention .null 5).2.2.1 "Shoes" (by decide) (by decide)⟩
